import Mathlib

/-!
# Verification of the AMI430 vector-magnet ramp-control subsystem

Shallow embedding of the three QTLab magnet drivers `AMI430_single`,
`AMI430_2D` and `AMI430_3D` (files `instrument_plugins/AMI430_single.py`,
`AMI430_2D.py`, `AMI430_3D.py`).

Modelling conventions:

* Python floats are modelled as real numbers (`ℝ`); `math.hypot`,
  `math.radians`, `math.degrees`, `math.cos`, `math.sin`, `math.atan` are the
  corresponding real functions.
* The hardware behind one `AMI430_single` instance is an environment record:
  the answers the instrument returns to the `QU?`, `PERS?`, `PS?` and
  `FIELD:MAG?` queries, and a stream `states : ℕ → ℕ` of successive answers
  to the `STATE?` query (the driver polls `STATE?` repeatedly; the `i`-th
  read returns `states i`).  Functions that poll thread the index of the
  next unread answer and take a fuel argument; exhausted fuel yields `none`.
* State-changing commands sent to the hardware (`PAUSE`, `RAMP`, `ZERO`,
  `CONF:FIELD:TARG v`, `PS 1`, `PS 0`) are collected in an ordered trace of
  type `List Cmd`.
* At the coordinator level (2D/3D) a call `channelA.set_field(v)` is recorded
  as the pair `(A, v)` in an ordered trace, and its boolean result is given
  by an oracle `ok : Axis → ℝ → Bool` carried by the environment.
-/

namespace AMI430

/-- `math.radians`: degrees to radians. -/
noncomputable def radians (x : ℝ) : ℝ := x * Real.pi / 180

/-- `math.degrees`: radians to degrees. -/
noncomputable def degrees (x : ℝ) : ℝ := x * 180 / Real.pi

/-- `math.hypot x y = sqrt (x² + y²)`. -/
noncomputable def hypot (x y : ℝ) : ℝ := Real.sqrt (x ^ 2 + y ^ 2)

namespace Single

/-- Hardware commands sent by `AMI430_single` that change instrument state
(`PAUSE`, `RAMP`, `ZERO`, `CONF:FIELD:TARG v`, `PS 1`, `PS 0`). -/
inductive Cmd where
  | pause
  | ramp
  | zero
  | confTarg (v : ℝ)
  | psOn
  | psOff

/-- Environment of one axis: the answers the magnet supply returns to the
driver's queries, plus the two soft attributes `_offseten`/`_fieldoffset`
of the instance.  `states i` is the answer to the `i`-th `STATE?` query. -/
structure AxisEnv where
  quench : Bool
  persistent : Bool
  pSwitch : Bool
  offsetEnabled : Bool
  offsetField : ℝ
  fieldMag : ℝ
  states : ℕ → ℕ

/-- The ramp-state dispatch inside `_set_magnet_for_ramping`
(`AMI430_single.py` lines 190-215): everything after the quench and
persistent-mode guards, deciding on the value `temp` read from `STATE?`. -/
def ramp_state_ok (pswPresent pSwitch : Bool) (temp : ℕ) : Bool :=
  if temp = 4 ∨ temp = 5 then false
  else if temp = 6 then false
  else if temp = 9 ∨ temp = 10 then false
  else if temp = 7 then false
  else if temp = 1 then
    if !pswPresent then true
    else if pSwitch then true
    else false
  else if temp = 2 ∨ temp = 3 ∨ temp = 8 then true
  else false

/-- `_set_magnet_for_ramping` (`AMI430_single.py` lines 182-216) as a pure
function of the queried values: quench flag, persistent flag, switch-heater
flag, the ramp state `temp`, and the caller's `pers` argument. -/
def set_magnet_for_ramping (pswPresent quench persistent pSwitch : Bool)
    (temp : ℕ) (pers : Bool) : Bool :=
  if quench then false
  else if pswPresent && persistent && !pers then false
  else ramp_state_ok pswPresent pSwitch temp

/-- `_set_magnet_for_ramping` with the ramp state read from the environment's
`STATE?` stream at index `i0`; returns the result together with the index of
the next unread answer (the state is only read once the quench and
persistent-mode guards have passed). -/
def ready_run (env : AxisEnv) (pswPresent pers : Bool) (i0 : ℕ) : Bool × ℕ :=
  if env.quench then (false, i0)
  else if pswPresent && env.persistent && !pers then (false, i0)
  else (ramp_state_ok pswPresent env.pSwitch (env.states i0), i0 + 1)

/-- A `while get_rampState() == s: sleep` polling loop: starting at stream
index `i`, skip answers equal to `s`; return the index of the next unread
answer after the loop exits (the loop consumes the first answer `≠ s`).
`none` when the fuel runs out before a differing answer arrives. -/
def pollWhileEq (s : ℕ) (states : ℕ → ℕ) : ℕ → ℕ → Option ℕ
  | _, 0 => none
  | i, fuel + 1 =>
    if states i = s then pollWhileEq s states (i + 1) fuel else some (i + 1)

/-- `do_set_pSwitch` (`AMI430_single.py` lines 252-267): send `PS 1`
(resp. `PS 0`), then poll while the ramp state reads `HeatingSwitch(9)`
(resp. `CoolingSwitch(10)`).  Returns the next unread stream index and the
command trace. -/
def set_pSwitch_run (env : AxisEnv) (value : Bool) (i fuel : ℕ) :
    Option (ℕ × List Cmd) :=
  if value then
    (pollWhileEq 9 env.states i fuel).map (fun j => (j, [Cmd.psOn]))
  else
    (pollWhileEq 10 env.states i fuel).map (fun j => (j, [Cmd.psOff]))

/-- The switch-engage block of `do_set_field` (`AMI430_single.py` lines
300-302): when a switch is present and `pers` was not requested, and the
heater reads off, run `set_pSwitch(True)`; otherwise do nothing.  Returns
the next unread stream index and the commands sent by the block. -/
def engage_run (env : AxisEnv) (pswPresent pers : Bool) (i fuel : ℕ) :
    Option (ℕ × List Cmd) :=
  if pswPresent && !pers && !env.pSwitch then set_pSwitch_run env true i fuel
  else some (i, [])

/-- `do_set_field` (`AMI430_single.py` lines 293-320).  Returns
`some (result, next stream index, command trace)`, or `none` when a polling
loop exceeds the fuel.  Steps, as in the source: readiness check; `setPause`
(sends `PAUSE`, reads `STATE?`); in offset mode the programmed value becomes
`value + offsetField`; `CONF:FIELD:TARG`; if a switch is present and `pers`
was not requested, engage the heater when it is off; `setRamp` (sends `RAMP`,
reads `STATE?`); poll while `Ramping(1)`; settle; re-read `STATE?` and return
`true` with a final `setPause` exactly when it reads `Holding(2)`, otherwise
re-read once more (for the log message) and return `false`. -/
def do_set_field_run (env : AxisEnv) (pswPresent : Bool) (value : ℝ)
    (pers : Bool) (i0 fuel : ℕ) : Option (Bool × ℕ × List Cmd) :=
  match ready_run env pswPresent pers i0 with
  | (false, i) => some (false, i, [])
  | (true, i) =>
    let value' := if env.offsetEnabled then value + env.offsetField else value
    match engage_run env pswPresent pers (i + 1) fuel with
    | none => none
    | some (k, ps) =>
      match pollWhileEq 1 env.states (k + 1) fuel with
      | none => none
      | some j =>
        if env.states j = 2 then
          some (true, (if env.offsetEnabled then j + 4 else j + 3),
            [Cmd.pause, Cmd.confTarg value'] ++ ps ++ [Cmd.ramp, Cmd.pause])
        else
          some (false, j + 2, [Cmd.pause, Cmd.confTarg value'] ++ ps ++ [Cmd.ramp])

/-- `do_get_field` (`AMI430_single.py` lines 286-291): reads `STATE?` once,
then returns the `FIELD:MAG?` answer.  The offset branch subtracts
`get_offsetField` from `get_totalField`, but `do_get_totalField` returns the
raw response string, so in Python 2 that branch raises a `TypeError`
(string minus float); it is modelled as `none`. -/
def get_field_run (env : AxisEnv) (i0 : ℕ) : Option (ℝ × ℕ) :=
  if env.offsetEnabled then none else some (env.fieldMag, i0 + 1)

/-- `do_set_persistent` (`AMI430_single.py` lines 451-490).  Enabling: a
no-op returning `true` when already persistent; otherwise requires ramp
state `Holding(2)` or `Paused(3)`, then switches the heater off, sends
`ZERO` (reading `STATE?`), polls while `RampingToZero(6)`, and succeeds
exactly when the post-settle state reads `AtZero(8)`.  Disabling: a no-op
returning `true` when already driven; otherwise requires state 2, 3 or 8,
re-ramps via `set_field(get_field(), pers=True)` and re-engages the
heater. -/
def do_set_persistent_run (env : AxisEnv) (pswPresent value : Bool)
    (i0 fuel : ℕ) : Option (Bool × ℕ × List Cmd) :=
  if !pswPresent then some (false, i0, [])
  else if value then
    if env.persistent then some (true, i0, [])
    else
      let temp := env.states i0
      if ¬(temp = 2 ∨ temp = 3) then some (false, i0 + 1, [])
      else
        match set_pSwitch_run env false (i0 + 1) fuel with
        | none => none
        | some (i, c1) =>
          match pollWhileEq 6 env.states (i + 1) fuel with
          | none => none
          | some j =>
            if env.states j = 8 then some (true, j + 1, c1 ++ [Cmd.zero])
            else some (false, j + 1, c1 ++ [Cmd.zero])
  else
    if !env.persistent then some (true, i0, [])
    else
      let temp := env.states i0
      if ¬(temp = 2 ∨ temp = 3 ∨ temp = 8) then some (false, i0 + 1, [])
      else
        match get_field_run env (i0 + 1) with
        | none => none
        | some (v, i) =>
          match do_set_field_run env pswPresent v true i fuel with
          | none => none
          | some (true, k, c2) =>
            match set_pSwitch_run env true k fuel with
            | none => none
            | some (k2, c3) => some (true, k2, c2 ++ c3)
          | some (false, k, c2) => some (false, k, c2)

end Single

namespace TwoD

/-- The two axes of `AMI430_2D` (`self._channelX`, `self._channelY`). -/
inductive Axis where
  | X
  | Y
deriving DecidableEq

/-- Environment of the 2D coordinator: the boolean result of
`channel.set_field(v)` for each axis and value, and the current field
readings `get_fieldX()` / `get_fieldY()`. -/
structure Env where
  ok : Axis → ℝ → Bool
  fieldX : ℝ
  fieldY : ℝ

/-- Soft instance attributes of `AMI430_2D` used by the vector operations. -/
structure State where
  alpha : ℝ
  field : ℝ
  offseten : Bool
  fieldoffset : ℝ
  alphaoffset : ℝ

/-- `FIELDRATING_XY = 1.0` (`AMI430_2D.py` line 52). -/
def FIELDRATING_XY : ℝ := 1

/-- `_field_limit` (`AMI430_2D.py` lines 626-630). -/
noncomputable def field_limit (Bx By : ℝ) : Bool :=
  if hypot Bx By < FIELDRATING_XY then true else false

/-- `_sweep_X_then_Y` (`AMI430_2D.py` lines 634-635):
`channelX.set_field(Bx) and channelY.set_field(By)` — the second call is
short-circuited away when the first fails. -/
def sweep_X_then_Y (env : Env) (Bx By : ℝ) : Bool × List (Axis × ℝ) :=
  if env.ok .X Bx then (env.ok .Y By, [(.X, Bx), (.Y, By)])
  else (false, [(.X, Bx)])

/-- `_sweep_Y_then_X` (`AMI430_2D.py` lines 637-638). -/
def sweep_Y_then_X (env : Env) (Bx By : ℝ) : Bool × List (Axis × ℝ) :=
  if env.ok .Y By then (env.ok .X Bx, [(.Y, By), (.X, Bx)])
  else (false, [(.Y, By)])

/-- `_sweepFields` (`AMI430_2D.py` lines 640-646): read the current X field;
ramp X first when the new X target is smaller in magnitude, otherwise ramp Y
first. -/
noncomputable def sweepFields (env : Env) (Bx By : ℝ) : Bool × List (Axis × ℝ) :=
  if |Bx| < |env.fieldX| then sweep_X_then_Y env Bx By
  else sweep_Y_then_X env Bx By

/-- `do_set_field` (`AMI430_2D.py` lines 441-461).  Returns the boolean
result, the updated soft state, and the trace of per-axis `set_field`
calls. -/
noncomputable def do_set_field (env : Env) (s : State) (value : ℝ) :
    Bool × State × List (Axis × ℝ) :=
  let a := radians s.alpha
  if s.offseten then
    let ao := radians s.alphaoffset
    let Bxtot := s.fieldoffset * Real.cos ao + value * Real.cos a
    let Bytot := s.fieldoffset * Real.sin ao + value * Real.sin a
    if field_limit Bxtot Bytot then
      match sweepFields env Bxtot Bytot with
      | (true, tr) => (true, { s with field := value }, tr)
      | (false, tr) => (false, s, tr)
    else (false, s, [])
  else
    let r := sweepFields env (value * Real.cos a) (value * Real.sin a)
    (r.1, { s with field := value }, r.2)

/-- `do_get_field` (`AMI430_2D.py` lines 434-439): in offset mode the cached
`_field`; otherwise `hypot` of the two instantaneous readings, also cached.
Returns the value and the updated soft state. -/
noncomputable def do_get_field (env : Env) (s : State) : ℝ × State :=
  if s.offseten then (s.field, s)
  else (hypot env.fieldX env.fieldY, { s with field := hypot env.fieldX env.fieldY })

/-- `do_set_alpha` (`AMI430_2D.py` lines 472-500). -/
noncomputable def do_set_alpha (env : Env) (s : State) (value : ℝ) :
    Bool × State × List (Axis × ℝ) :=
  if s.offseten then
    let a := radians value
    let ao := radians s.alphaoffset
    let Bxtot := s.fieldoffset * Real.cos ao + s.field * Real.cos a
    let Bytot := s.fieldoffset * Real.sin ao + s.field * Real.sin a
    if field_limit Bxtot Bytot then
      match sweepFields env Bxtot Bytot with
      | (true, tr) => (true, { s with alpha := value }, tr)
      | (false, tr) => (false, s, tr)
    else (false, s, [])
  else
    let B := (do_get_field env s).1
    let s1 := (do_get_field env s).2
    let a := radians value
    match sweepFields env (B * Real.cos a) (B * Real.sin a) with
    | (true, tr) => (true, { s1 with alpha := value }, tr)
    | (false, tr) => (false, s1, tr)

/-- `do_set_offsetField` (`AMI430_2D.py` lines 560-576). -/
noncomputable def do_set_offsetField (env : Env) (s : State) (value : ℝ) :
    Bool × State × List (Axis × ℝ) :=
  let a := radians s.alpha
  let ao := radians s.alphaoffset
  let Bxtot := value * Real.cos ao + s.field * Real.cos a
  let Bytot := value * Real.sin ao + s.field * Real.sin a
  if field_limit Bxtot Bytot then
    match sweepFields env Bxtot Bytot with
    | (true, tr) => (true, { s with fieldoffset := value }, tr)
    | (false, tr) => (false, s, tr)
  else (false, s, [])

/-- `do_set_offsetAlpha` (`AMI430_2D.py` lines 581-597). -/
noncomputable def do_set_offsetAlpha (env : Env) (s : State) (value : ℝ) :
    Bool × State × List (Axis × ℝ) :=
  let ao := radians value
  let a := radians s.alpha
  let Bxtot := s.fieldoffset * Real.cos ao + s.field * Real.cos a
  let Bytot := s.fieldoffset * Real.sin ao + s.field * Real.sin a
  if field_limit Bxtot Bytot then
    match sweepFields env Bxtot Bytot with
    | (true, tr) => (true, { s with alphaoffset := value }, tr)
    | (false, tr) => (false, s, tr)
  else (false, s, [])

/-- `do_get_totalField` (`AMI430_2D.py` lines 602-603). -/
noncomputable def do_get_totalField (Bx By : ℝ) : ℝ := hypot Bx By

/-- `do_get_totalAlpha` (`AMI430_2D.py` lines 608-620): plain `math.atan` of
`By/Bx`, returned as degrees when `By > 0` and as `360 - degrees` otherwise;
when `Bx = 0`, `90` for `By ≥ 0` and `270` for `By < 0`. -/
noncomputable def do_get_totalAlpha (Bx By : ℝ) : ℝ :=
  if Bx ≠ 0 then
    if By > 0 then degrees (Real.arctan (By / Bx))
    else 360 - degrees (Real.arctan (By / Bx))
  else
    if By ≥ 0 then 90 else 270

end TwoD

namespace ThreeD

/-- The three axes of `AMI430_3D` (`self._channelX/Y/Z`). -/
inductive Axis where
  | X
  | Y
  | Z
deriving DecidableEq

/-- Environment of the 3D coordinator: the boolean result of
`channel.set_field(v)` for each axis and value, and the current field
readings of the three axes. -/
structure Env where
  ok : Axis → ℝ → Bool
  fieldX : ℝ
  fieldY : ℝ
  fieldZ : ℝ

/-- Mode constants of `AMI430_3D` (`AMI430_3D.py` lines 125-132). -/
def MODE_RAW : ℕ := 0x01

def MODE_X : ℕ := 0x02

def MODE_Y : ℕ := 0x04

def MODE_Z : ℕ := 0x08

def MODE_XY : ℕ := 0x10

def MODE_XZ : ℕ := 0x20

def MODE_YZ : ℕ := 0x40

def MODE_XYZ : ℕ := 0x80

/-- Vector field ratings of `AMI430_3D` (`AMI430_3D.py` lines 58-61). -/
def FIELDRATING_XY : ℝ := 1

def FIELDRATING_XZ : ℝ := 1

def FIELDRATING_YZ : ℝ := 3

def FIELDRATING_XYZ : ℝ := 1

/-- Soft instance attributes of `AMI430_3D` used by the vector operations.
`offsetfield` models the stray attribute `self._offsetfield` that
`do_set_offsetField` creates on first successful call (`AMI430_3D.py` line
872); the class-level attribute read by `do_get_offsetField` is
`fieldoffset` (`_fieldoffset`, line 93). -/
structure State where
  mode : ℕ
  alpha : ℝ
  phi : ℝ
  field : ℝ
  offseten : Bool
  fieldoffset : ℝ
  alphaoffset : ℝ
  phioffset : ℝ
  offsetfield : ℝ

/-- `_field_limit` of `AMI430_3D` (`AMI430_3D.py` lines 967-971).  The
method receives `self` — whose `_mode` is carried here as the `mode`
argument — but its body never consults the mode: it always compares against
`FIELDRATING_XYZ`. -/
noncomputable def field_limit (_mode : ℕ) (Bx By Bz : ℝ) : Bool :=
  if hypot (hypot Bx By) Bz < FIELDRATING_XYZ then true else false

/-- Modelled from the spec: the mode-dependent rating `ratedVectorField(mode)`
that §4.3 of the spec says the vector-limit check compares against, with the
distinct caps of `AMI430_3D.py` lines 58-61 for the XY, XZ, YZ and XYZ
modes.  No function of the source computes this; it exists only to be
compared with `field_limit`. -/
def ratedVectorField (mode : ℕ) : ℝ :=
  if mode = MODE_XY then FIELDRATING_XY
  else if mode = MODE_XZ then FIELDRATING_XZ
  else if mode = MODE_YZ then FIELDRATING_YZ
  else FIELDRATING_XYZ

/-- Modelled from the spec: the vector-limit check as §4.3 of the spec
states it, `hypot(hypot(Bx,By),Bz) < ratedVectorField(mode)`.  To be
compared with the source's `field_limit`. -/
noncomputable def field_limit_spec (mode : ℕ) (Bx By Bz : ℝ) : Bool :=
  if hypot (hypot Bx By) Bz < ratedVectorField mode then true else false

/-- An inline conjunction `channelA.set_field(v1) and channelB.set_field(v2)`
as it appears in the planar branches of `do_set_field`, `do_set_alpha` and
`do_set_phi`: the second call is short-circuited away when the first
fails. -/
def chain2 (env : Env) (a1 : Axis) (v1 : ℝ) (a2 : Axis) (v2 : ℝ) :
    Bool × List (Axis × ℝ) :=
  if env.ok a1 v1 then (env.ok a2 v2, [(a1, v1), (a2, v2)])
  else (false, [(a1, v1)])

/-- `_sweep_X_then_Y` of `AMI430_3D` (`AMI430_3D.py` lines 975-976). -/
def sweep_X_then_Y (env : Env) (Bx By : ℝ) : Bool × List (Axis × ℝ) :=
  if env.ok .X Bx then (env.ok .Y By, [(.X, Bx), (.Y, By)])
  else (false, [(.X, Bx)])

/-- `_sweep_Y_then_X` of `AMI430_3D` (`AMI430_3D.py` lines 978-979). -/
def sweep_Y_then_X (env : Env) (Bx By : ℝ) : Bool × List (Axis × ℝ) :=
  if env.ok .Y By then (env.ok .X Bx, [(.Y, By), (.X, Bx)])
  else (false, [(.Y, By)])

/-- `_sweep_XY_then_Z` (`AMI430_3D.py` lines 981-982).  The source body is
`channelX.set_field(Bx) and channelY.set_field(By) and channelY.set_field(Bz)`:
the third call sends `Bz` to channel Y, and channel Z is never commanded. -/
def sweep_XY_then_Z (env : Env) (Bx By Bz : ℝ) : Bool × List (Axis × ℝ) :=
  if env.ok .X Bx then
    if env.ok .Y By then (env.ok .Y Bz, [(.X, Bx), (.Y, By), (.Y, Bz)])
    else (false, [(.X, Bx), (.Y, By)])
  else (false, [(.X, Bx)])

/-- `_sweep_Z_then_XY` (`AMI430_3D.py` lines 984-985).  The source body is
`channelX.set_field(Bz) and channelY.set_field(Bx) and channelY.set_field(By)`:
`Bz` goes to channel X, `Bx` and `By` both go to channel Y, and channel Z is
never commanded. -/
def sweep_Z_then_XY (env : Env) (Bx By Bz : ℝ) : Bool × List (Axis × ℝ) :=
  if env.ok .X Bz then
    if env.ok .Y Bx then (env.ok .Y By, [(.X, Bz), (.Y, Bx), (.Y, By)])
    else (false, [(.X, Bz), (.Y, Bx)])
  else (false, [(.X, Bz)])

/-- `_sweepFieldsXY` (`AMI430_3D.py` lines 987-993). -/
noncomputable def sweepFieldsXY (env : Env) (Bx By : ℝ) :
    Bool × List (Axis × ℝ) :=
  if |Bx| < |env.fieldX| then sweep_X_then_Y env Bx By
  else sweep_Y_then_X env Bx By

/-- `_sweepFieldsXYZ` (`AMI430_3D.py` lines 995-1002): read the current Z
field; dispatch to `_sweep_Z_then_XY` when the new Z target is smaller in
magnitude, else to `_sweep_XY_then_Z`. -/
noncomputable def sweepFieldsXYZ (env : Env) (Bx By Bz : ℝ) :
    Bool × List (Axis × ℝ) :=
  if |Bz| < |env.fieldZ| then sweep_Z_then_XY env Bx By Bz
  else sweep_XY_then_Z env Bx By Bz

/-- `do_get_field` of `AMI430_3D` (`AMI430_3D.py` lines 616-630).  In the
single-axis/RAW modes the source returns the Python value `False`, which
equals `0.0` numerically; that fall-through is modelled as `0`. -/
noncomputable def do_get_field (env : Env) (s : State) : ℝ × State :=
  if s.mode = MODE_XY then (hypot env.fieldX env.fieldY, s)
  else if s.mode = MODE_XZ then (hypot env.fieldX env.fieldZ, s)
  else if s.mode = MODE_YZ then (hypot env.fieldY env.fieldZ, s)
  else if s.mode = MODE_XYZ then
    if s.offseten then (s.field, s)
    else (hypot (hypot env.fieldX env.fieldY) env.fieldZ,
      { s with field := hypot (hypot env.fieldX env.fieldY) env.fieldZ })
  else (0, s)

/-- `do_set_field` of `AMI430_3D` (`AMI430_3D.py` lines 632-673).  In the
planar modes the two axes are always commanded in the fixed written order
(X,Y / X,Z / Y,Z) with no look at the current fields; only the XYZ branch
goes through `_sweepFieldsXYZ`. -/
noncomputable def do_set_field (env : Env) (s : State) (value : ℝ) :
    Bool × State × List (Axis × ℝ) :=
  if s.mode = MODE_XY then
    let a := radians s.alpha
    let r := chain2 env .X (value * Real.cos a) .Y (value * Real.sin a)
    (r.1, s, r.2)
  else if s.mode = MODE_XZ then
    let f := radians s.phi
    let r := chain2 env .X (value * Real.sin f) .Z (value * Real.cos f)
    (r.1, s, r.2)
  else if s.mode = MODE_YZ then
    let f := radians s.phi
    let r := chain2 env .Y (value * Real.sin f) .Z (value * Real.cos f)
    (r.1, s, r.2)
  else if s.mode = MODE_XYZ then
    if s.offseten then
      let a := radians s.alpha
      let ao := radians s.alphaoffset
      let f := radians s.phi
      let fo := radians s.phioffset
      let Bxtot := s.fieldoffset * Real.cos ao * Real.sin fo +
        value * Real.cos a * Real.sin f
      let Bytot := s.fieldoffset * Real.sin ao * Real.sin fo +
        value * Real.sin a * Real.sin f
      let Bztot := s.fieldoffset * Real.cos fo + value * Real.cos f
      if field_limit s.mode Bxtot Bytot Bztot then
        match sweepFieldsXYZ env Bxtot Bytot Bztot with
        | (true, tr) => (true, { s with field := value }, tr)
        | (false, tr) => (false, s, tr)
      else (false, s, [])
    else
      let f := radians s.phi
      let a := radians s.alpha
      let r := sweepFieldsXYZ env (value * Real.sin f * Real.cos a)
        (value * Real.sin f * Real.sin a) (value * Real.cos f)
      (r.1, { s with field := value }, r.2)
  else (false, s, [])

/-- `do_set_alpha` of `AMI430_3D` (`AMI430_3D.py` lines 683-730).  Only the
XY and XYZ modes act; `_alpha` is updated before the sweep in XY mode and
only on success in XYZ mode. -/
noncomputable def do_set_alpha (env : Env) (s : State) (value : ℝ) :
    Bool × State × List (Axis × ℝ) :=
  if s.mode = MODE_XY then
    let B := (do_get_field env s).1
    let a := radians value
    let oldX := env.fieldX
    let newX := B * Real.cos a
    let newY := B * Real.sin a
    let s' := { s with alpha := value }
    if |newX| < |oldX| then
      let r := chain2 env .X newX .Y newY
      (r.1, s', r.2)
    else
      let r := chain2 env .Y newY .X newX
      (r.1, s', r.2)
  else if s.mode = MODE_XYZ then
    if s.offseten then
      let a := radians value
      let ao := radians s.alphaoffset
      let f := radians s.phi
      let fo := radians s.phioffset
      let Bxtot := s.fieldoffset * Real.cos ao * Real.sin fo +
        s.field * Real.cos a * Real.sin f
      let Bytot := s.fieldoffset * Real.sin ao * Real.sin fo +
        s.field * Real.sin a * Real.sin f
      let Bztot := s.fieldoffset * Real.cos fo + s.field * Real.cos f
      if field_limit s.mode Bxtot Bytot Bztot then
        match sweepFieldsXY env Bxtot Bytot with
        | (true, tr) => (true, { s with alpha := value }, tr)
        | (false, tr) => (false, s, tr)
      else (false, s, [])
    else
      let B := (do_get_field env s).1
      let s1 := (do_get_field env s).2
      let a := radians value
      let f := radians s.phi
      match sweepFieldsXY env (B * Real.cos a * Real.sin f)
          (B * Real.sin a * Real.sin f) with
      | (true, tr) => (true, { s1 with alpha := value }, tr)
      | (false, tr) => (false, s1, tr)
  else (false, s, [])

/-- `do_set_phi` of `AMI430_3D` (`AMI430_3D.py` lines 735-794).  In the XZ
and YZ modes `_phi` is updated before the sweep and the pair ordering rule
is applied; in XYZ mode the sweep goes through `_sweepFieldsXYZ`. -/
noncomputable def do_set_phi (env : Env) (s : State) (value : ℝ) :
    Bool × State × List (Axis × ℝ) :=
  if s.mode = MODE_XZ then
    let B := (do_get_field env s).1
    let f := radians value
    let oldX := env.fieldX
    let newX := B * Real.sin f
    let newZ := B * Real.cos f
    let s' := { s with phi := value }
    if |newX| < |oldX| then
      let r := chain2 env .X newX .Z newZ
      (r.1, s', r.2)
    else
      let r := chain2 env .Z newZ .X newX
      (r.1, s', r.2)
  else if s.mode = MODE_YZ then
    let B := (do_get_field env s).1
    let f := radians value
    let oldY := env.fieldY
    let newY := B * Real.sin f
    let newZ := B * Real.cos f
    let s' := { s with phi := value }
    if |newY| < |oldY| then
      let r := chain2 env .Y newY .Z newZ
      (r.1, s', r.2)
    else
      let r := chain2 env .Z newZ .Y newY
      (r.1, s', r.2)
  else if s.mode = MODE_XYZ then
    if s.offseten then
      let a := radians s.alpha
      let ao := radians s.alphaoffset
      let f := radians value
      let fo := radians s.phioffset
      let Bxtot := s.fieldoffset * Real.cos ao * Real.sin fo +
        s.field * Real.cos a * Real.sin f
      let Bytot := s.fieldoffset * Real.sin ao * Real.sin fo +
        s.field * Real.sin a * Real.sin f
      let Bztot := s.fieldoffset * Real.cos fo + s.field * Real.cos f
      if field_limit s.mode Bxtot Bytot Bztot then
        match sweepFieldsXYZ env Bxtot Bytot Bztot with
        | (true, tr) => (true, { s with phi := value }, tr)
        | (false, tr) => (false, s, tr)
      else (false, s, [])
    else
      let B := (do_get_field env s).1
      let s1 := (do_get_field env s).2
      let a := radians s.alpha
      let f := radians value
      match sweepFieldsXYZ env (B * Real.cos a * Real.sin f)
          (B * Real.sin a * Real.sin f) (B * Real.cos f) with
      | (true, tr) => (true, { s1 with phi := value }, tr)
      | (false, tr) => (false, s1, tr)
  else (false, s, [])

/-- `do_get_offsetField` of `AMI430_3D` (`AMI430_3D.py` lines 859-860):
returns the class attribute `_fieldoffset`. -/
def do_get_offsetField (s : State) : ℝ := s.fieldoffset

/-- `do_set_offsetField` of `AMI430_3D` (`AMI430_3D.py` lines 862-882).  On
success the source executes `self._offsetfield = value` (line 872), writing
the stray attribute `_offsetfield`; the attribute `_fieldoffset` that
`do_get_offsetField` and the combined-vector computations read is never
assigned. -/
noncomputable def do_set_offsetField (env : Env) (s : State) (value : ℝ) :
    Bool × State × List (Axis × ℝ) :=
  let a := radians s.alpha
  let ao := radians s.alphaoffset
  let f := radians s.phi
  let fo := radians s.phioffset
  let Bxtot := value * Real.cos ao * Real.sin fo +
    s.field * Real.cos a * Real.sin f
  let Bytot := value * Real.sin ao * Real.sin fo +
    s.field * Real.sin a * Real.sin f
  let Bztot := value * Real.cos fo + s.field * Real.cos f
  if field_limit s.mode Bxtot Bytot Bztot then
    match sweepFieldsXYZ env Bxtot Bytot Bztot with
    | (true, tr) => (true, { s with offsetfield := value }, tr)
    | (false, tr) => (false, s, tr)
  else (false, s, [])

end ThreeD

/-! ## Helper lemmas -/

theorem hypot_zero_left (y : ℝ) : hypot 0 y = |y| := by
  simp [hypot, Real.sqrt_sq_eq_abs]

theorem hypot_zero_right (x : ℝ) : hypot x 0 = |x| := by
  simp [hypot, Real.sqrt_sq_eq_abs]

theorem radians_zero : radians 0 = 0 := by
  simp [radians]

/-! ## Claim theorems -/

/-- C1 (code_bug evidence): `_sweepFieldsXYZ` does dispatch on
`|Bz| < |current Z|`, but neither branch commands the Z channel with `Bz`.
With current fields `(0,0,0)` and targets `(0.1, 0.2, 0.3)`, every axis call
succeeding, the `XY`-then-`Z` branch is taken and the commands issued are
X←0.1, Y←0.2, Y←0.3 — channel Z receives nothing; and on the same targets
the other branch `_sweep_Z_then_XY` would issue X←0.3, Y←0.1, Y←0.2,
sending the Z component to the X channel.  This contradicts the claim that
each axis controller is commanded with its own Cartesian component (and, in
the Z-first branch, that the Z axis is ramped first). -/
theorem C1_sweepFieldsXYZ_never_commands_Z :
    ThreeD.sweepFieldsXYZ ⟨fun _ _ => true, 0, 0, 0⟩ 0.1 0.2 0.3 =
      (true, [(ThreeD.Axis.X, 0.1), (ThreeD.Axis.Y, 0.2), (ThreeD.Axis.Y, 0.3)]) ∧
    ThreeD.sweep_Z_then_XY ⟨fun _ _ => true, 0, 0, 0⟩ 0.1 0.2 0.3 =
      (true, [(ThreeD.Axis.X, 0.3), (ThreeD.Axis.Y, 0.1), (ThreeD.Axis.Y, 0.2)]) := by
  constructor
  · have h : ¬(|(0.3 : ℝ)| < |((⟨fun _ _ => true, 0, 0, 0⟩ : ThreeD.Env)).fieldZ|) := by
      norm_num
    simp [ThreeD.sweepFieldsXYZ, ThreeD.sweep_XY_then_Z, h]
  · simp [ThreeD.sweep_Z_then_XY]

/-- C5: in the 2D coordinator with offset mode on, `FIELDRATING_XY = 1.0`,
offset field 0.9 T at offset alpha 0°, a `set_field(0.3)` at alpha 0° fails
the vector-limit check (`hypot(1.2, 0) = 1.2 ≥ 1`), returns `false` with no
axis `set_field` call issued, and leaves the whole soft state (stored field,
alpha and both offsets) unchanged — for every axis environment and every
stored `_field` value. -/
theorem C5_offset_limit_blocks_set_field (env : TwoD.Env) (f : ℝ) :
    TwoD.do_set_field env
      { alpha := 0, field := f, offseten := true,
        fieldoffset := 0.9, alphaoffset := 0 } 0.3 =
    (false,
      { alpha := 0, field := f, offseten := true,
        fieldoffset := 0.9, alphaoffset := 0 }, []) := by
  have hx : (0.9 : ℝ) * Real.cos (radians 0) + 0.3 * Real.cos (radians 0) = 1.2 := by
    rw [radians_zero, Real.cos_zero]; norm_num
  have hy : (0.9 : ℝ) * Real.sin (radians 0) + 0.3 * Real.sin (radians 0) = 0 := by
    rw [radians_zero, Real.sin_zero]; norm_num
  have hlt : ¬(|(1.2 : ℝ)| < TwoD.FIELDRATING_XY) := by
    rw [TwoD.FIELDRATING_XY, abs_of_nonneg (by norm_num : (0 : ℝ) ≤ 1.2)]
    norm_num
  have hlim : TwoD.field_limit 1.2 0 = false := by
    rw [TwoD.field_limit, hypot_zero_right, if_neg hlt]
  simp only [TwoD.do_set_field, hx, hy, hlim]
  norm_num

/-- C7 (counterexample): the claim says the pre-sweep vector-limit check
compares against a mode-dependent rating with distinct caps per mode.  The
source's `_field_limit` always compares against `FIELDRATING_XYZ = 1.0`:
the vector `(0, 2, 0)` is rejected by `_field_limit` even in YZ mode, where
the spec's mode-dependent check (cap `FIELDRATING_YZ = 3.0`) accepts it. -/
theorem C7_field_limit_ignores_mode :
    ThreeD.field_limit ThreeD.MODE_YZ 0 2 0 = false ∧
    ThreeD.field_limit_spec ThreeD.MODE_YZ 0 2 0 = true := by
  have h : hypot (hypot 0 2) 0 = 2 := by
    rw [hypot_zero_left, hypot_zero_right]
    norm_num
  constructor
  · rw [ThreeD.field_limit, h, if_neg]
    rw [ThreeD.FIELDRATING_XYZ]
    norm_num
  · rw [ThreeD.field_limit_spec, h, if_pos]
    rw [ThreeD.ratedVectorField]
    norm_num [ThreeD.MODE_YZ, ThreeD.MODE_XY, ThreeD.MODE_XZ, ThreeD.FIELDRATING_YZ]

/-- C7 (amended): the vector-limit check of the 3D coordinator compares
`hypot(hypot(Bx,By),Bz)` against `FIELDRATING_XYZ` regardless of the active
mode; the distinct per-mode rating constants exist in the source but the
check does not consult them, so its verdict is the same in every mode. -/
theorem C7_field_limit_uses_XYZ_rating (m m' : ℕ) (Bx By Bz : ℝ) :
    ThreeD.field_limit m Bx By Bz = ThreeD.field_limit m' Bx By Bz ∧
    (ThreeD.field_limit m Bx By Bz = true ↔
      hypot (hypot Bx By) Bz < ThreeD.FIELDRATING_XYZ) := by
  refine ⟨rfl, ?_⟩
  by_cases h : hypot (hypot Bx By) Bz < ThreeD.FIELDRATING_XYZ <;>
    simp [ThreeD.field_limit, h]

/-- C9: `set_persistent(true)` on an axis whose magnet already reports
persistent mode is a pure no-op — it returns `true` immediately, sends no
hardware command and consumes no further status reads; hence a second
`setPersistent(true)` right after a successful first one performs the
switch-heater/zeroing sequence zero additional times. -/
theorem C9_set_persistent_idempotent (env : Single.AxisEnv) (i0 fuel : ℕ)
    (h : env.persistent = true) :
    Single.do_set_persistent_run env true true i0 fuel = some (true, i0, []) := by
  simp [Single.do_set_persistent_run, h]

/-- C2: every two-axis sweep of the 2D coordinator goes through
`_sweepFields`, which first reads the current X field and ramps X first
exactly when the new X target is smaller in magnitude, otherwise Y first
(part 1, for environments where both axis commands succeed; the trace lists
the per-axis `set_field` calls in order).  Parts 2 and 3: with current
X = 0.3 T and new X target 0.1 T the first axis commanded is X, and with
current X = 0.1 T and new target 0.3 T the first axis commanded is Y, for
every axis oracle.  Parts 4-7: the traces of `do_set_field`,
`do_set_alpha`, `do_set_offsetField` and `do_set_offsetAlpha` are always a
`_sweepFields` trace (or empty when the limit check rejects). -/
theorem C2_sweepFields_ordering :
    (∀ (env : TwoD.Env) (Bx By : ℝ), (∀ a v, env.ok a v = true) →
      (TwoD.sweepFields env Bx By).2 =
        if |Bx| < |env.fieldX| then [(TwoD.Axis.X, Bx), (TwoD.Axis.Y, By)]
        else [(TwoD.Axis.Y, By), (TwoD.Axis.X, Bx)]) ∧
    (∀ (ok : TwoD.Axis → ℝ → Bool) (oldY By : ℝ),
      (TwoD.sweepFields ⟨ok, 0.3, oldY⟩ 0.1 By).2.head? =
        some (TwoD.Axis.X, 0.1)) ∧
    (∀ (ok : TwoD.Axis → ℝ → Bool) (oldY By : ℝ),
      (TwoD.sweepFields ⟨ok, 0.1, oldY⟩ 0.3 By).2.head? =
        some (TwoD.Axis.Y, By)) ∧
    (∀ (env : TwoD.Env) (s : TwoD.State) (v : ℝ),
      (∃ Bx By, (TwoD.do_set_field env s v).2.2 = (TwoD.sweepFields env Bx By).2) ∨
        (TwoD.do_set_field env s v).2.2 = []) ∧
    (∀ (env : TwoD.Env) (s : TwoD.State) (v : ℝ),
      (∃ Bx By, (TwoD.do_set_alpha env s v).2.2 = (TwoD.sweepFields env Bx By).2) ∨
        (TwoD.do_set_alpha env s v).2.2 = []) ∧
    (∀ (env : TwoD.Env) (s : TwoD.State) (v : ℝ),
      (∃ Bx By, (TwoD.do_set_offsetField env s v).2.2 = (TwoD.sweepFields env Bx By).2) ∨
        (TwoD.do_set_offsetField env s v).2.2 = []) ∧
    (∀ (env : TwoD.Env) (s : TwoD.State) (v : ℝ),
      (∃ Bx By, (TwoD.do_set_offsetAlpha env s v).2.2 = (TwoD.sweepFields env Bx By).2) ∨
        (TwoD.do_set_offsetAlpha env s v).2.2 = []) := by
  refine ⟨?_, ?_, ?_, ?_, ?_, ?_, ?_⟩
  · intro env Bx By hok
    unfold TwoD.sweepFields TwoD.sweep_X_then_Y TwoD.sweep_Y_then_X
    split <;> simp [hok]
  · intro ok oldY By
    have h : |(0.1 : ℝ)| < |((⟨ok, 0.3, oldY⟩ : TwoD.Env)).fieldX| := by
      show |(0.1 : ℝ)| < |(0.3 : ℝ)|
      rw [abs_of_nonneg (by norm_num : (0 : ℝ) ≤ 0.1),
        abs_of_nonneg (by norm_num : (0 : ℝ) ≤ 0.3)]
      norm_num
    rw [TwoD.sweepFields, if_pos h, TwoD.sweep_X_then_Y]
    cases hx : ok TwoD.Axis.X 0.1 <;> simp [hx]
  · intro ok oldY By
    have h : ¬(|(0.3 : ℝ)| < |((⟨ok, 0.1, oldY⟩ : TwoD.Env)).fieldX|) := by
      show ¬(|(0.3 : ℝ)| < |(0.1 : ℝ)|)
      rw [abs_of_nonneg (by norm_num : (0 : ℝ) ≤ 0.1),
        abs_of_nonneg (by norm_num : (0 : ℝ) ≤ 0.3)]
      norm_num
    rw [TwoD.sweepFields, if_neg h, TwoD.sweep_Y_then_X]
    cases hy : ok TwoD.Axis.Y By <;> simp [hy]
  · intro env s v
    simp only [TwoD.do_set_field]
    split
    · split
      · split
        · next tr heq => exact Or.inl ⟨_, _, (congrArg Prod.snd heq).symm⟩
        · next tr heq => exact Or.inl ⟨_, _, (congrArg Prod.snd heq).symm⟩
      · exact Or.inr rfl
    · exact Or.inl ⟨_, _, rfl⟩
  · intro env s v
    simp only [TwoD.do_set_alpha]
    split
    · split
      · split
        · next tr heq => exact Or.inl ⟨_, _, (congrArg Prod.snd heq).symm⟩
        · next tr heq => exact Or.inl ⟨_, _, (congrArg Prod.snd heq).symm⟩
      · exact Or.inr rfl
    · split
      · next tr heq => exact Or.inl ⟨_, _, (congrArg Prod.snd heq).symm⟩
      · next tr heq => exact Or.inl ⟨_, _, (congrArg Prod.snd heq).symm⟩
  · intro env s v
    simp only [TwoD.do_set_offsetField]
    split
    · split
      · next tr heq => exact Or.inl ⟨_, _, (congrArg Prod.snd heq).symm⟩
      · next tr heq => exact Or.inl ⟨_, _, (congrArg Prod.snd heq).symm⟩
    · exact Or.inr rfl
  · intro env s v
    simp only [TwoD.do_set_offsetAlpha]
    split
    · split
      · next tr heq => exact Or.inl ⟨_, _, (congrArg Prod.snd heq).symm⟩
      · next tr heq => exact Or.inl ⟨_, _, (congrArg Prod.snd heq).symm⟩
    · exact Or.inr rfl

/-- Witness for C2: the ordering statement of part 1 applied at current
X field 0.3 T, target `Bx = 0.1` (and `By = 2`), with an all-succeeding
axis oracle. -/
theorem C2_sweepFields_ordering_witness :
    (TwoD.sweepFields ⟨fun _ _ => true, 0.3, 0⟩ 0.1 2).2 =
      if |(0.1 : ℝ)| < |((⟨fun _ _ => true, 0.3, 0⟩ : TwoD.Env)).fieldX| then
        [(TwoD.Axis.X, 0.1), (TwoD.Axis.Y, 2)]
      else [(TwoD.Axis.Y, 2), (TwoD.Axis.X, 0.1)] :=
  C2_sweepFields_ordering.1 ⟨fun _ _ => true, 0.3, 0⟩ 0.1 2 (fun _ _ => rfl)

/-- C3: the ramp-readiness check `_set_magnet_for_ramping` fails exactly
when the magnet is quenched (quench flag, or ramp state `QuenchDetected(7)`),
or it reports persistent mode without the caller requesting persistent-mode
ramping, or the ramp state is `ManualUp(4)`/`ManualDown(5)`,
`RampingToZero(6)`, `HeatingSwitch(9)`/`CoolingSwitch(10)`, or `Ramping(1)`
with the switch heater off — and succeeds on `Holding(2)`, `Paused(3)`,
`AtZero(8)` and `Ramping(1)` with the heater on (part 1, for the hardware
ramp states 1-10, under the invariant that a magnet without a persistent
switch never reports persistent mode, as `do_get_persistent` guarantees).
Part 2: with the quench flag set, `do_set_field` returns `false` having
sent no command at all. -/
theorem C3_ramp_readiness :
    (∀ (pswPresent quench persistent pSwitch pers : Bool) (temp : ℕ),
      (persistent = true → pswPresent = true) →
      1 ≤ temp → temp ≤ 10 →
      (Single.set_magnet_for_ramping pswPresent quench persistent pSwitch temp pers
          = false ↔
        (quench = true ∨ temp = 7 ∨ (persistent = true ∧ pers = false) ∨
          temp = 4 ∨ temp = 5 ∨ temp = 6 ∨ temp = 9 ∨ temp = 10 ∨
          (temp = 1 ∧ pswPresent = true ∧ pSwitch = false)))) ∧
    (∀ (env : Single.AxisEnv) (pswPresent : Bool) (value : ℝ) (pers : Bool)
        (i0 fuel : ℕ),
      env.quench = true →
      Single.do_set_field_run env pswPresent value pers i0 fuel =
        some (false, i0, [])) := by
  constructor
  · intro pswPresent quench persistent pSwitch pers temp hpp h1 h2
    interval_cases temp <;>
      (revert hpp; revert pswPresent quench persistent pSwitch pers; decide)
  · intro env pswPresent value pers i0 fuel h
    simp [Single.do_set_field_run, Single.ready_run, h]

/-- Witness for C3: part 1 at a quenched magnet in state `Holding(2)` with a
switch present, and part 2 at a concrete quenched environment with
`setField(0.2)`, which returns `false` with an empty command trace. -/
theorem C3_ramp_readiness_witness :
    (Single.set_magnet_for_ramping true true false true 2 false = false ↔
      (true = true ∨ 2 = 7 ∨ (false = true ∧ false = false) ∨
        2 = 4 ∨ 2 = 5 ∨ 2 = 6 ∨ 2 = 9 ∨ 2 = 10 ∨
        (2 = 1 ∧ true = true ∧ true = false))) ∧
    Single.do_set_field_run ⟨true, false, true, false, 0, 0, fun _ => 2⟩
      true 0.2 false 0 5 = some (false, 0, []) :=
  ⟨C3_ramp_readiness.1 true true false true false 2 (fun h => by cases h)
      (by norm_num) (by norm_num),
    C3_ramp_readiness.2 ⟨true, false, true, false, 0, 0, fun _ => 2⟩
      true 0.2 false 0 5 rfl⟩

/-- A readiness check that passes reads exactly one `STATE?` answer. -/
theorem ready_run_of_true (env : Single.AxisEnv) (pswPresent pers : Bool)
    (i0 : ℕ)
    (h : Single.set_magnet_for_ramping pswPresent env.quench env.persistent
      env.pSwitch (env.states i0) pers = true) :
    Single.ready_run env pswPresent pers i0 = (true, i0 + 1) := by
  rw [Single.set_magnet_for_ramping] at h
  rw [Single.ready_run]
  split_ifs at h ⊢
  rw [h]

/-- A successful `set_pSwitch(True)` sends exactly the `PS 1` command. -/
theorem set_pSwitch_run_true_cmds (env : Single.AxisEnv) (i fuel k : ℕ)
    (ps : List Single.Cmd)
    (h : Single.set_pSwitch_run env true i fuel = some (k, ps)) :
    ps = [Single.Cmd.psOn] := by
  simp only [Single.set_pSwitch_run, if_true] at h
  cases hp : Single.pollWhileEq 9 env.states i fuel with
  | none => rw [hp] at h; simp at h
  | some j =>
    rw [hp] at h
    simp only [Option.map_some', Option.some.injEq, Prod.mk.injEq] at h
    exact h.2.symm

/-- The commands sent by the switch-engage block of `do_set_field`: `PS 1`
exactly when a switch is present, `pers` was not requested and the heater
reads off; nothing otherwise. -/
theorem engage_run_cmds (env : Single.AxisEnv) (pswPresent pers : Bool)
    (i fuel k : ℕ) (ps : List Single.Cmd)
    (h : Single.engage_run env pswPresent pers i fuel = some (k, ps)) :
    ps = if pswPresent && !pers && !env.pSwitch then [Single.Cmd.psOn] else [] := by
  rw [Single.engage_run] at h
  by_cases hc : (pswPresent && !pers && !env.pSwitch) = true
  · rw [if_pos hc] at h
    rw [if_pos hc]
    exact set_pSwitch_run_true_cmds env i fuel k ps h
  · rw [if_neg hc] at h
    rw [if_neg hc]
    simp only [Option.some.injEq, Prod.mk.injEq] at h
    exact h.2.symm

/-- C4: whenever the blocking `do_set_field` terminates after passing the
readiness check, it has sent `PAUSE`, programmed the target
(`CONF:FIELD:TARG`, with the offset folded in when offset mode is on),
engaged the persistent switch exactly when one is present and not already
on and `pers` was not requested, and started the ramp (`RAMP`); it then
polled `STATE?` until the answer left `Ramping(1)`, and after the settle
delay it returned `true` — re-pausing — precisely when the post-settle
`STATE?` answer `env.states j` was `Holding(2)`, returning `false` on any
other post-settle state. -/
theorem C4_set_field_blocking (env : Single.AxisEnv) (pswPresent : Bool)
    (value : ℝ) (pers : Bool) (i0 fuel : ℕ) (b : Bool) (n : ℕ)
    (cmds : List Single.Cmd)
    (hrun : Single.do_set_field_run env pswPresent value pers i0 fuel =
      some (b, n, cmds))
    (hready : Single.set_magnet_for_ramping pswPresent env.quench
      env.persistent env.pSwitch (env.states i0) pers = true) :
    ∃ k j, Single.pollWhileEq 1 env.states (k + 1) fuel = some j ∧
      (b = true ↔ env.states j = 2) ∧
      cmds = [Single.Cmd.pause,
          Single.Cmd.confTarg
            (if env.offsetEnabled then value + env.offsetField else value)] ++
        (if pswPresent && !pers && !env.pSwitch then [Single.Cmd.psOn] else []) ++
        [Single.Cmd.ramp] ++
        (if env.states j = 2 then [Single.Cmd.pause] else []) := by
  have hr := ready_run_of_true env pswPresent pers i0 hready
  simp only [Single.do_set_field_run, hr] at hrun
  cases he : Single.engage_run env pswPresent pers (i0 + 1 + 1) fuel with
  | none => rw [he] at hrun; simp at hrun
  | some kp =>
    obtain ⟨k, ps⟩ := kp
    simp only [he] at hrun
    have hps := engage_run_cmds env pswPresent pers (i0 + 1 + 1) fuel k ps he
    cases hp : Single.pollWhileEq 1 env.states (k + 1) fuel with
    | none => rw [hp] at hrun; simp at hrun
    | some j =>
      simp only [hp] at hrun
      by_cases hj : env.states j = 2
      · rw [if_pos hj] at hrun
        simp only [Option.some.injEq, Prod.mk.injEq] at hrun
        obtain ⟨hb, -, hc⟩ := hrun
        refine ⟨k, j, hp, ?_, ?_⟩
        · rw [← hb]
          simp [hj]
        · rw [← hc, hps, if_pos hj]
          simp
      · rw [if_neg hj] at hrun
        simp only [Option.some.injEq, Prod.mk.injEq] at hrun
        obtain ⟨hb, -, hc⟩ := hrun
        refine ⟨k, j, hp, ?_, ?_⟩
        · rw [← hb]
          simp [hj]
        · rw [← hc, hps, if_neg hj]
          simp

/-- Witness for C4: a magnet answering `Holding(2)` to every `STATE?` query,
with the heater already on and no offset: `setField(0.2)` terminates with
result `true` and command trace `PAUSE`, `CONF:FIELD:TARG 0.2`, `RAMP`,
`PAUSE`. -/
theorem C4_set_field_blocking_witness :
    ∃ k j, Single.pollWhileEq 1 (fun _ => 2) (k + 1) 5 = some j ∧
      ((true : Bool) = true ↔ (fun _ => (2 : ℕ)) j = 2) ∧
      ([Single.Cmd.pause, Single.Cmd.confTarg 0.2, Single.Cmd.ramp,
          Single.Cmd.pause] : List Single.Cmd) =
        [Single.Cmd.pause, Single.Cmd.confTarg 0.2] ++ [] ++
          [Single.Cmd.ramp] ++
          (if (fun _ => (2 : ℕ)) j = 2 then [Single.Cmd.pause] else []) :=
  C4_set_field_blocking ⟨false, false, true, false, 0, 0, fun _ => 2⟩
    true 0.2 false 0 5 true 7
    [Single.Cmd.pause, Single.Cmd.confTarg 0.2, Single.Cmd.ramp,
      Single.Cmd.pause] rfl rfl

/-- C8 (counterexample): `do_get_totalAlpha` does not fold the angle of the
instantaneous vector into `[0°, 360°)`: at `(fieldX, fieldY) = (1, -1)` it
returns `360 - degrees(atan(-1)) = 405`, which lies outside `[0°, 360°)`
(the angle of the vector `(1, -1)` folded into that range is `315°`). -/
theorem C8_totalAlpha_out_of_range :
    TwoD.do_get_totalAlpha 1 (-1) = 405 ∧
    ¬(TwoD.do_get_totalAlpha 1 (-1) < 360) := by
  have h : TwoD.do_get_totalAlpha 1 (-1) = 405 := by
    rw [TwoD.do_get_totalAlpha, if_pos (by norm_num : (1 : ℝ) ≠ 0),
      if_neg (by norm_num : ¬((-1 : ℝ) > 0))]
    rw [show ((-1 : ℝ) / 1) = -1 by norm_num, Real.arctan_neg, Real.arctan_one,
      degrees]
    have hpi := Real.pi_ne_zero
    field_simp
    ring
  exact ⟨h, by rw [h]; norm_num⟩

/-- C8 (amended): for `fieldX ≠ 0` the 2D `do_get_totalAlpha` returns
`degrees(atan(fieldY/fieldX))` when `fieldY > 0` and
`360 - degrees(atan(fieldY/fieldX))` otherwise — which equals the folded
vector angle only in the open first quadrant, where it lies in `(0°, 90°)`
(part 1); the exact-zero-X edge cases return 90° when `fieldY ≥ 0` and 270°
when `fieldY < 0`, the zero/zero case returning 90° (parts 2 and 3); and
`do_get_totalField` returns `hypot(fieldX, fieldY)` (part 4). -/
theorem C8_totalAlpha_formula :
    (∀ x y : ℝ, 0 < x → 0 < y →
      TwoD.do_get_totalAlpha x y = degrees (Real.arctan (y / x)) ∧
      0 < TwoD.do_get_totalAlpha x y ∧ TwoD.do_get_totalAlpha x y < 90) ∧
    (∀ y : ℝ, 0 ≤ y → TwoD.do_get_totalAlpha 0 y = 90) ∧
    (∀ y : ℝ, y < 0 → TwoD.do_get_totalAlpha 0 y = 270) ∧
    (∀ x y : ℝ, TwoD.do_get_totalField x y = Real.sqrt (x ^ 2 + y ^ 2)) := by
  refine ⟨?_, ?_, ?_, fun x y => rfl⟩
  · intro x y hx hy
    have hval : TwoD.do_get_totalAlpha x y = degrees (Real.arctan (y / x)) := by
      rw [TwoD.do_get_totalAlpha, if_pos (ne_of_gt hx), if_pos hy]
    have harc : 0 < Real.arctan (y / x) := by
      have h0 := Real.arctan_strictMono (div_pos hy hx)
      rwa [Real.arctan_zero] at h0
    have hpos : 0 < degrees (Real.arctan (y / x)) := by
      rw [degrees]
      positivity
    have hlt : degrees (Real.arctan (y / x)) < 90 := by
      rw [degrees]
      have h2 : Real.arctan (y / x) < Real.pi / 2 := Real.arctan_lt_pi_div_two _
      have hpi : (0 : ℝ) < Real.pi := Real.pi_pos
      calc Real.arctan (y / x) * 180 / Real.pi
          < Real.pi / 2 * 180 / Real.pi := by gcongr
        _ = 90 := by field_simp; ring
    exact ⟨hval, by rw [hval]; exact hpos, by rw [hval]; exact hlt⟩
  · intro y hy
    rw [TwoD.do_get_totalAlpha, if_neg (by simp), if_pos hy]
  · intro y hy
    rw [TwoD.do_get_totalAlpha, if_neg (by simp), if_neg (not_le.mpr hy)]

/-- Witness for C8 amended, at `(1, 1)`, `(0, 0)`, `(0, -1)` and `(3, 4)`. -/
theorem C8_totalAlpha_formula_witness :
    (TwoD.do_get_totalAlpha 1 1 = degrees (Real.arctan (1 / 1)) ∧
      0 < TwoD.do_get_totalAlpha 1 1 ∧ TwoD.do_get_totalAlpha 1 1 < 90) ∧
    TwoD.do_get_totalAlpha 0 0 = 90 ∧
    TwoD.do_get_totalAlpha 0 (-1) = 270 ∧
    TwoD.do_get_totalField 3 4 = Real.sqrt (3 ^ 2 + 4 ^ 2) :=
  ⟨C8_totalAlpha_formula.1 1 1 one_pos one_pos,
    C8_totalAlpha_formula.2.1 0 le_rfl,
    C8_totalAlpha_formula.2.2.1 (-1) (by norm_num),
    C8_totalAlpha_formula.2.2.2 3 4⟩

/-- C10: in the 3D coordinator a successful `set_offsetField(v)` writes the
stray attribute `_offsetfield` and never assigns `_fieldoffset`, which is
what `get_offsetField` returns and what every combined-vector computation
reads; hence after the call `get_offsetField()` still returns the offset
value from before the call. -/
theorem C10_set_offsetField_stale (env : ThreeD.Env) (s s' : ThreeD.State)
    (value : ℝ) (tr : List (ThreeD.Axis × ℝ))
    (h : ThreeD.do_set_offsetField env s value = (true, s', tr)) :
    ThreeD.do_get_offsetField s' = ThreeD.do_get_offsetField s ∧
    s'.fieldoffset = s.fieldoffset ∧ s'.offsetfield = value := by
  simp only [ThreeD.do_set_offsetField] at h
  rw [ThreeD.do_get_offsetField, ThreeD.do_get_offsetField]
  split at h
  · split at h
    · next tr0 heq =>
      simp only [Prod.mk.injEq, true_and] at h
      obtain ⟨hs, htr⟩ := h
      subst hs
      exact ⟨rfl, rfl, rfl⟩
    · next tr0 heq => simp at h
  · simp at h

/-- Witness for C10: with all angles zero, stored offset 0, and an
all-succeeding axis oracle, `set_offsetField(0.5)` succeeds, yet
`get_offsetField` still returns 0, the pre-call value; the written
attribute is the stray `_offsetfield`. -/
theorem C10_set_offsetField_stale_witness :
    ThreeD.do_get_offsetField ⟨ThreeD.MODE_XYZ, 0, 0, 0, true, 0, 0, 0, 0.5⟩ =
      ThreeD.do_get_offsetField ⟨ThreeD.MODE_XYZ, 0, 0, 0, true, 0, 0, 0, 0⟩ ∧
    (⟨ThreeD.MODE_XYZ, 0, 0, 0, true, 0, 0, 0, 0.5⟩ : ThreeD.State).fieldoffset =
      (⟨ThreeD.MODE_XYZ, 0, 0, 0, true, 0, 0, 0, 0⟩ : ThreeD.State).fieldoffset ∧
    (⟨ThreeD.MODE_XYZ, 0, 0, 0, true, 0, 0, 0, 0.5⟩ : ThreeD.State).offsetfield = 0.5 := by
  have hfl : ThreeD.field_limit ThreeD.MODE_XYZ 0 0 0.5 = true := by
    have hlt : |(0.5 : ℝ)| < ThreeD.FIELDRATING_XYZ := by
      rw [ThreeD.FIELDRATING_XYZ, abs_of_nonneg (by norm_num : (0 : ℝ) ≤ 0.5)]
      norm_num
    rw [ThreeD.field_limit, hypot_zero_left, abs_zero, hypot_zero_left, if_pos hlt]
  have hz : ¬(|(0.5 : ℝ)| <
      |((⟨fun _ _ => true, 0, 0, 0⟩ : ThreeD.Env)).fieldZ|) := by
    show ¬(|(0.5 : ℝ)| < |(0 : ℝ)|)
    rw [abs_zero]
    exact not_lt.mpr (abs_nonneg _)
  have hsw : ThreeD.sweepFieldsXYZ ⟨fun _ _ => true, 0, 0, 0⟩ 0 0 0.5 =
      (true, [(ThreeD.Axis.X, 0), (ThreeD.Axis.Y, 0), (ThreeD.Axis.Y, 0.5)]) := by
    rw [ThreeD.sweepFieldsXYZ, if_neg hz]
    simp [ThreeD.sweep_XY_then_Z]
  refine C10_set_offsetField_stale ⟨fun _ _ => true, 0, 0, 0⟩
    ⟨ThreeD.MODE_XYZ, 0, 0, 0, true, 0, 0, 0, 0⟩
    ⟨ThreeD.MODE_XYZ, 0, 0, 0, true, 0, 0, 0, 0.5⟩ 0.5
    [(ThreeD.Axis.X, 0), (ThreeD.Axis.Y, 0), (ThreeD.Axis.Y, 0.5)] ?_
  simp only [ThreeD.do_set_offsetField, radians_zero, Real.cos_zero,
    Real.sin_zero, mul_one, mul_zero, zero_mul, add_zero, zero_add]
  rw [hfl]
  simp only [if_true]
  rw [hsw]

/-- C6 (counterexample): in the 3D coordinator's XY planar mode,
`set_field` does not apply the two-axis ordering rule: with alpha 0°,
current X field 0, and target amplitude 0.5 (so the new X target 0.5 is
not smaller in magnitude than the current X field), the rule would ramp Y
first, but the code always commands X first (and never reads the current
fields). -/
theorem C6_planar_set_field_fixed_order :
    ThreeD.do_set_field ⟨fun _ _ => true, 0, 0, 0⟩
      ⟨ThreeD.MODE_XY, 0, 0, 0, false, 0, 0, 0, 0⟩ 0.5 =
      (true, ⟨ThreeD.MODE_XY, 0, 0, 0, false, 0, 0, 0, 0⟩,
        [(ThreeD.Axis.X, 0.5), (ThreeD.Axis.Y, 0)]) ∧
    ¬(|(0.5 : ℝ)| < |((⟨fun _ _ => true, 0, 0, 0⟩ : ThreeD.Env)).fieldX|) := by
  constructor
  · simp [ThreeD.do_set_field, ThreeD.chain2, radians_zero, Real.cos_zero,
      Real.sin_zero]
  · show ¬(|(0.5 : ℝ)| < |(0 : ℝ)|)
    rw [abs_zero]
    exact not_lt.mpr (abs_nonneg _)

/-- C6 (amended): in the 3D coordinator's planar submodes, `set_alpha` (XY)
and `set_phi` (XZ, YZ) do apply the 2D decreasing-magnitude-first ordering
rule to the relevant axis pair (parts 1-3, for environments where the axis
commands succeed), but `set_field` in the planar modes always commands the
two axes in a fixed order — X then Y, X then Z, Y then Z — without
comparing new targets against current fields (parts 4-6). -/
theorem C6_planar_ordering (env : ThreeD.Env) (s : ThreeD.State) (value : ℝ)
    (hok : ∀ a v, env.ok a v = true) :
    (s.mode = ThreeD.MODE_XY →
      (ThreeD.do_set_alpha env s value).2.2 =
        if |hypot env.fieldX env.fieldY * Real.cos (radians value)| < |env.fieldX| then
          [(ThreeD.Axis.X, hypot env.fieldX env.fieldY * Real.cos (radians value)),
            (ThreeD.Axis.Y, hypot env.fieldX env.fieldY * Real.sin (radians value))]
        else
          [(ThreeD.Axis.Y, hypot env.fieldX env.fieldY * Real.sin (radians value)),
            (ThreeD.Axis.X, hypot env.fieldX env.fieldY * Real.cos (radians value))]) ∧
    (s.mode = ThreeD.MODE_XZ →
      (ThreeD.do_set_phi env s value).2.2 =
        if |hypot env.fieldX env.fieldZ * Real.sin (radians value)| < |env.fieldX| then
          [(ThreeD.Axis.X, hypot env.fieldX env.fieldZ * Real.sin (radians value)),
            (ThreeD.Axis.Z, hypot env.fieldX env.fieldZ * Real.cos (radians value))]
        else
          [(ThreeD.Axis.Z, hypot env.fieldX env.fieldZ * Real.cos (radians value)),
            (ThreeD.Axis.X, hypot env.fieldX env.fieldZ * Real.sin (radians value))]) ∧
    (s.mode = ThreeD.MODE_YZ →
      (ThreeD.do_set_phi env s value).2.2 =
        if |hypot env.fieldY env.fieldZ * Real.sin (radians value)| < |env.fieldY| then
          [(ThreeD.Axis.Y, hypot env.fieldY env.fieldZ * Real.sin (radians value)),
            (ThreeD.Axis.Z, hypot env.fieldY env.fieldZ * Real.cos (radians value))]
        else
          [(ThreeD.Axis.Z, hypot env.fieldY env.fieldZ * Real.cos (radians value)),
            (ThreeD.Axis.Y, hypot env.fieldY env.fieldZ * Real.sin (radians value))]) ∧
    (s.mode = ThreeD.MODE_XY →
      (ThreeD.do_set_field env s value).2.2 =
        [(ThreeD.Axis.X, value * Real.cos (radians s.alpha)),
          (ThreeD.Axis.Y, value * Real.sin (radians s.alpha))]) ∧
    (s.mode = ThreeD.MODE_XZ →
      (ThreeD.do_set_field env s value).2.2 =
        [(ThreeD.Axis.X, value * Real.sin (radians s.phi)),
          (ThreeD.Axis.Z, value * Real.cos (radians s.phi))]) ∧
    (s.mode = ThreeD.MODE_YZ →
      (ThreeD.do_set_field env s value).2.2 =
        [(ThreeD.Axis.Y, value * Real.sin (radians s.phi)),
          (ThreeD.Axis.Z, value * Real.cos (radians s.phi))]) := by
  refine ⟨?_, ?_, ?_, ?_, ?_, ?_⟩
  · intro hm
    simp only [ThreeD.do_set_alpha, hm, ThreeD.do_get_field]
    simp only [ThreeD.MODE_XY, ThreeD.MODE_XZ, ThreeD.MODE_YZ, ThreeD.MODE_XYZ]
    norm_num [ThreeD.chain2, hok]
    split <;> simp [hok]
  · intro hm
    simp only [ThreeD.do_set_phi, hm, ThreeD.do_get_field]
    simp only [ThreeD.MODE_XY, ThreeD.MODE_XZ, ThreeD.MODE_YZ, ThreeD.MODE_XYZ]
    norm_num [ThreeD.chain2, hok]
    split <;> simp [hok]
  · intro hm
    simp only [ThreeD.do_set_phi, hm, ThreeD.do_get_field]
    simp only [ThreeD.MODE_XY, ThreeD.MODE_XZ, ThreeD.MODE_YZ, ThreeD.MODE_XYZ]
    norm_num [ThreeD.chain2, hok]
    split <;> simp [hok]
  · intro hm
    simp only [ThreeD.do_set_field, hm]
    simp only [ThreeD.MODE_XY, ThreeD.MODE_XZ, ThreeD.MODE_YZ, ThreeD.MODE_XYZ]
    norm_num [ThreeD.chain2, hok]
  · intro hm
    simp only [ThreeD.do_set_field, hm]
    simp only [ThreeD.MODE_XY, ThreeD.MODE_XZ, ThreeD.MODE_YZ, ThreeD.MODE_XYZ]
    norm_num [ThreeD.chain2, hok]
  · intro hm
    simp only [ThreeD.do_set_field, hm]
    simp only [ThreeD.MODE_XY, ThreeD.MODE_XZ, ThreeD.MODE_YZ, ThreeD.MODE_XYZ]
    norm_num [ThreeD.chain2, hok]

/-- Witness for C6 amended: the conjunction instantiated at an
all-succeeding axis oracle, current fields `(0.3, 0.4, 0)`, a state in XY
mode, and target angle 0°. -/
theorem C6_planar_ordering_witness :
    ((⟨ThreeD.MODE_XY, 0, 0, 0, false, 0, 0, 0, 0⟩ : ThreeD.State).mode =
        ThreeD.MODE_XY →
      (ThreeD.do_set_alpha ⟨fun _ _ => true, 0.3, 0.4, 0⟩
        ⟨ThreeD.MODE_XY, 0, 0, 0, false, 0, 0, 0, 0⟩ 0).2.2 =
        if |hypot 0.3 0.4 * Real.cos (radians 0)| < |(0.3 : ℝ)| then
          [(ThreeD.Axis.X, hypot 0.3 0.4 * Real.cos (radians 0)),
            (ThreeD.Axis.Y, hypot 0.3 0.4 * Real.sin (radians 0))]
        else
          [(ThreeD.Axis.Y, hypot 0.3 0.4 * Real.sin (radians 0)),
            (ThreeD.Axis.X, hypot 0.3 0.4 * Real.cos (radians 0))]) ∧
    ((⟨ThreeD.MODE_XY, 0, 0, 0, false, 0, 0, 0, 0⟩ : ThreeD.State).mode =
        ThreeD.MODE_XZ →
      (ThreeD.do_set_phi ⟨fun _ _ => true, 0.3, 0.4, 0⟩
        ⟨ThreeD.MODE_XY, 0, 0, 0, false, 0, 0, 0, 0⟩ 0).2.2 =
        if |hypot 0.3 0 * Real.sin (radians 0)| < |(0.3 : ℝ)| then
          [(ThreeD.Axis.X, hypot 0.3 0 * Real.sin (radians 0)),
            (ThreeD.Axis.Z, hypot 0.3 0 * Real.cos (radians 0))]
        else
          [(ThreeD.Axis.Z, hypot 0.3 0 * Real.cos (radians 0)),
            (ThreeD.Axis.X, hypot 0.3 0 * Real.sin (radians 0))]) ∧
    ((⟨ThreeD.MODE_XY, 0, 0, 0, false, 0, 0, 0, 0⟩ : ThreeD.State).mode =
        ThreeD.MODE_YZ →
      (ThreeD.do_set_phi ⟨fun _ _ => true, 0.3, 0.4, 0⟩
        ⟨ThreeD.MODE_XY, 0, 0, 0, false, 0, 0, 0, 0⟩ 0).2.2 =
        if |hypot 0.4 0 * Real.sin (radians 0)| < |(0.4 : ℝ)| then
          [(ThreeD.Axis.Y, hypot 0.4 0 * Real.sin (radians 0)),
            (ThreeD.Axis.Z, hypot 0.4 0 * Real.cos (radians 0))]
        else
          [(ThreeD.Axis.Z, hypot 0.4 0 * Real.cos (radians 0)),
            (ThreeD.Axis.Y, hypot 0.4 0 * Real.sin (radians 0))]) ∧
    ((⟨ThreeD.MODE_XY, 0, 0, 0, false, 0, 0, 0, 0⟩ : ThreeD.State).mode =
        ThreeD.MODE_XY →
      (ThreeD.do_set_field ⟨fun _ _ => true, 0.3, 0.4, 0⟩
        ⟨ThreeD.MODE_XY, 0, 0, 0, false, 0, 0, 0, 0⟩ 0).2.2 =
        [(ThreeD.Axis.X, 0 * Real.cos (radians 0)),
          (ThreeD.Axis.Y, 0 * Real.sin (radians 0))]) ∧
    ((⟨ThreeD.MODE_XY, 0, 0, 0, false, 0, 0, 0, 0⟩ : ThreeD.State).mode =
        ThreeD.MODE_XZ →
      (ThreeD.do_set_field ⟨fun _ _ => true, 0.3, 0.4, 0⟩
        ⟨ThreeD.MODE_XY, 0, 0, 0, false, 0, 0, 0, 0⟩ 0).2.2 =
        [(ThreeD.Axis.X, 0 * Real.sin (radians 0)),
          (ThreeD.Axis.Z, 0 * Real.cos (radians 0))]) ∧
    ((⟨ThreeD.MODE_XY, 0, 0, 0, false, 0, 0, 0, 0⟩ : ThreeD.State).mode =
        ThreeD.MODE_YZ →
      (ThreeD.do_set_field ⟨fun _ _ => true, 0.3, 0.4, 0⟩
        ⟨ThreeD.MODE_XY, 0, 0, 0, false, 0, 0, 0, 0⟩ 0).2.2 =
        [(ThreeD.Axis.Y, 0 * Real.sin (radians 0)),
          (ThreeD.Axis.Z, 0 * Real.cos (radians 0))]) :=
  C6_planar_ordering ⟨fun _ _ => true, 0.3, 0.4, 0⟩
    ⟨ThreeD.MODE_XY, 0, 0, 0, false, 0, 0, 0, 0⟩ 0 (fun _ _ => rfl)

/-- Witness for C9 at a concrete environment already in persistent mode. -/
theorem C9_set_persistent_idempotent_witness :
    Single.do_set_persistent_run
      ⟨false, true, false, false, 0, 0, fun _ => 2⟩ true true 0 5 =
      some (true, 0, []) :=
  C9_set_persistent_idempotent ⟨false, true, false, false, 0, 0, fun _ => 2⟩ 0 5 rfl

end AMI430
